import Mathlib

/-!
Shallow embedding of `src/metadata-ingestion/src/datahub/ingestion/source/openapi.py`
(the DataHub OpenAPI ingestion source) and proofs about the claims on its spec.

The file first translates the Python data model and control flow into executable
Lean definitions, then states and settles the claims.  Functions that live in
`datahub/ingestion/source/openapi_parser.py` (not part of the given sources) are
either kept abstract as fields of an environment record `Env`, or, where a claim
depends on them, modelled from the specification text (marked by a doc comment
starting with "Modelled from the spec:").
-/

/-! ## Python string primitives

The Python code uses `str.split`, `str.replace` and the `in` substring test.
We model them over character lists with an explicit fuel argument so that all
definitions are structurally recursive and kernel-evaluable.  All call sites in
the translated code use a non-empty separator or pattern, which is the case the
models are faithful to. -/

/-- One step of Python `str.split(sep)` for a non-empty `sep`, with fuel.
`acc` holds the (reversed) characters of the current chunk. -/
def splitOnSubFuel (sep : List Char) : Nat → List Char → List Char → List String
  | 0, acc, hay => [String.mk (acc.reverse ++ hay)]
  | Nat.succ n, acc, hay =>
    match hay with
    | [] => [String.mk acc.reverse]
    | c :: rest =>
      if !sep.isEmpty && sep.isPrefixOf hay then
        String.mk acc.reverse :: splitOnSubFuel sep n [] (hay.drop sep.length)
      else
        splitOnSubFuel sep n (c :: acc) rest

/-- Python `s.split(sep)` for a non-empty separator `sep`. -/
def pySplit (s sep : String) : List String :=
  splitOnSubFuel sep.data (s.data.length + 1) [] s.data

/-- Python substring test `pat in hay`. -/
def containsSub (hay pat : String) : Bool :=
  (List.range (hay.data.length + 1)).any (fun i => pat.data.isPrefixOf (hay.data.drop i))

/-- Fuel-driven worker for Python `str.replace` with a non-empty pattern. -/
def pyReplaceAux (pat rep : List Char) : Nat → List Char → List Char
  | 0, hay => hay
  | Nat.succ n, hay =>
    match hay with
    | [] => []
    | c :: rest =>
      if !pat.isEmpty && pat.isPrefixOf hay then
        rep ++ pyReplaceAux pat rep n (hay.drop pat.length)
      else
        c :: pyReplaceAux pat rep n rest

/-- Python `s.replace(pat, rep)` for a non-empty pattern `pat`. -/
def pyReplace (s pat rep : String) : String :=
  String.mk (pyReplaceAux pat.data rep.data s.data.length s.data)

/-- Join a list of strings with a separator (used to rebuild split paths). -/
def joinWith (sep : String) : List String → String
  | [] => ""
  | s :: rest => rest.foldl (fun acc t => acc ++ sep ++ t) s

/-! ## JSON-like values

Samples and declared example data in the swagger dictionary are arbitrary JSON
values. -/

/-- A JSON-like value, as held in the swagger dictionary and in HTTP bodies. -/
inductive Value where
  | vnull : Value
  | vbool : Bool → Value
  | vnum : Int → Value
  | vstr : String → Value
  | varr : List Value → Value
  | vobj : List (String × Value) → Value

/-- Python truthiness of a JSON-like value (empty collections, empty string,
zero, false and null are falsy). -/
def valueTruthy : Value → Bool
  | Value.vnull => false
  | Value.vbool b => b
  | Value.vnum n => n != 0
  | Value.vstr s => !s.data.isEmpty
  | Value.varr xs => !xs.isEmpty
  | Value.vobj kvs => !kvs.isEmpty

/-! ## Configuration (`OpenApiConfig`, openapi.py lines 48-57) -/

/-- `OpenApiConfig`: the pydantic configuration model.  `forced_examples` is a
dict from path template to a list of attribute values; `get_token` is a dict of
strings.  Dicts are modelled as association lists in insertion order. -/
structure OpenApiConfig where
  name : String
  url : String
  swagger_file : String
  ignore_endpoints : List String := []
  username : String := ""
  password : String := ""
  forced_examples : List (String × List String) := []
  token : Option String := none
  get_token : List (String × String) := []

/-- Lookup in a Python dict of strings (`d[k]` / `k in d.keys()`). -/
def lookupStr (d : List (String × String)) (k : String) : Option String :=
  (d.find? (fun p => p.1 == k)).map (fun p => p.2)

/-! ## `OpenApiConfig.get_swagger` (openapi.py lines 59-102)

The external calls `get_tok` and `get_swag_json` live in `openapi_parser.py`.
We record which call `get_swagger` ends up making: `SwagCall` is the argument
shape of the final `get_swag_json` call, and the optional `TokenRequest` is the
argument shape of the `get_tok` call, if one was made at all.  `get_tok` itself
is passed in as a function so the theorems can quantify over it. -/

/-- Arguments of a `get_tok` token-acquisition call. -/
structure TokenRequest where
  url : String
  username : String
  password : String
  tok_url : String
  method : String
deriving DecidableEq

/-- Argument shape of the final `get_swag_json` call made by `get_swagger`. -/
inductive SwagCall where
  | withToken (url : String) (token : Option String) (swagger_file : String)
  | withBasic (url : String) (username : String) (password : String) (swagger_file : String)
deriving DecidableEq

/-- Errors `get_swagger` can raise: `AssertionError` from the `assert`
statements, `KeyError` from a missing dict key or from the explicit
`raise KeyError` for an unsupported request type. -/
inductive GetSwaggerError where
  | assertionError (msg : String)
  | keyError (msg : String)
deriving DecidableEq

/-- Translation of `OpenApiConfig.get_swagger`.  Returns the token-acquisition
request (if any) together with the final spec-fetch call, or the raised error.
Message texts are abbreviated; the constructor records the exception class. -/
def get_swagger (config : OpenApiConfig) (get_tok : TokenRequest → String) :
    Except GetSwaggerError (Option TokenRequest × SwagCall) :=
  if config.get_token ≠ [] ∨ config.token ≠ none then
    match config.token with
    | some t =>
        Except.ok (none, SwagCall.withToken config.url (some t) config.swagger_file)
    | none =>
        match lookupStr config.get_token "url_complement" with
        | none => Except.error (GetSwaggerError.assertionError
            "an url_complement is needed for the request")
        | some compl =>
          match lookupStr config.get_token "request_type" with
          | none => Except.error (GetSwaggerError.keyError "request_type")
          | some rt =>
            if rt = "get" then
              if !containsSub compl "{username}" then
                Except.error (GetSwaggerError.assertionError
                  "we expect the keyword {username} to be present in the url")
              else if !containsSub compl "{password}" then
                Except.error (GetSwaggerError.assertionError
                  "we expect the keyword {password} to be present in the url")
              else
                let url4req := pyReplace (pyReplace compl "{username}" config.username)
                  "{password}" config.password
                let req : TokenRequest :=
                  ⟨config.url, config.username, config.password, url4req, rt⟩
                Except.ok (some req,
                  SwagCall.withToken config.url (some (get_tok req)) config.swagger_file)
            else if rt = "post" then
              let req : TokenRequest :=
                ⟨config.url, config.username, config.password, compl, rt⟩
              Except.ok (some req,
                SwagCall.withToken config.url (some (get_tok req)) config.swagger_file)
            else
              Except.error (GetSwaggerError.keyError
                "this tool accepts only get and post as method for getting tokens")
  else
    Except.ok (none,
      SwagCall.withBasic config.url config.username config.password config.swagger_file)

/-! ## Dataset-name derivation (openapi.py lines 162-168, inside `init_dataset`) -/

/-- The dataset-name derivation of `APISource.init_dataset`:
`dataset_name = endpoint_k[1:].replace("/", ".")`, then a trailing dot is
stripped, and an empty result becomes `"root"`. -/
def deriveName (endpoint_k : String) : String :=
  let d : List Char := (endpoint_k.data.drop 1).map (fun c => if c = '/' then '.' else c)
  if d.isEmpty then "root"
  else if d.getLast? = some '.' then String.mk d.dropLast
  else String.mk d

/-! ## Status-code classification (`APISource.report_bad_response`, lines 142-155) -/

/-- The `codes_mapping` dictionary of `report_bad_response`, with the documented
reason string for each recoverable status code. -/
def codes_mapping (status_code : Nat) : Option String :=
  if status_code = 400 then some "Unknown error for reaching endpoint"
  else if status_code = 403 then some "Not authorised to get endpoint"
  else if status_code = 404 then
    some "Unable to find an example for endpoint. Please add it to the list of forced examples."
  else if status_code = 500 then some "Server error for reaching endpoint"
  else if status_code = 504 then some "Timeout for reaching endpoint"
  else none

/-- Exceptions that can escape `get_workunits_internal`:
the `raise Exception(...)` in `report_bad_response` for an unclassified status
code; an exception propagated out of the unguarded `try_guessing` call; a
`KeyError` from a direct dict index; a `ValueError` from tuple unpacking of a
warning message with fewer than two parts. -/
inductive CrawlError where
  | unexpectedResponse (status_code : Nat) (key : String)
  | unresolvable (msg : String)
  | keyError (key : String)
  | valueError (msg : String)
deriving DecidableEq

/-- Translation of `APISource.report_bad_response`.  It looks the status code
up in `codes_mapping`; for an unknown code it raises; for a classified code it
computes the reason string and then returns without recording anything - the
reason is dropped on the floor (no `report_warning` call exists in the body). -/
def report_bad_response (status_code : Nat) (key : String) : Except CrawlError Unit :=
  match codes_mapping status_code with
  | none => Except.error (CrawlError.unexpectedResponse status_code key)
  | some _ => Except.ok ()

/-! ## Endpoint descriptors and branch conditions -/

/-- The per-endpoint dictionary `endpoint_dets` produced by `get_endpoints`:
description, tags, and the optional "schema" and "data" entries. -/
structure EndpointDets where
  description : String := ""
  tags : List String := []
  schema : Option (List (String × Value)) := none
  data : Option Value := none

/-- The guard of the declared-schema branch (lines 236-239):
`endpoint_dets.get("schema")` is truthy (present and a non-empty dict) and
`endpoint_dets.get("schema", {}).get("AnyValue") is None`. -/
def schemaNontrivial (dets : EndpointDets) : Bool :=
  match dets.schema with
  | none => false
  | some kvs => !kvs.isEmpty && (kvs.find? (fun p => p.1 == "AnyValue")).isNone

/-- The value of `endpoint_dets.get("schema", {})` used as extractor argument. -/
def schemaDict (dets : EndpointDets) : List (String × Value) :=
  dets.schema.getD []

/-- The guard of the declared-data branch (line 252):
`endpoint_dets.get("data", {})` is truthy. -/
def dataTruthy (dets : EndpointDets) : Bool :=
  match dets.data with
  | none => false
  | some v => valueTruthy v

/-! ## HTTP fetching -/

/-- The credential shape passed to `request_call`: either a bearer token or a
username/password pair. -/
inductive Auth where
  | bearer (token : String)
  | basic (username : String) (password : String)
deriving DecidableEq

/-- The credential selection repeated at the three `request_call` sites
(lines 262-267, 285-290, 310-315): `if config.token:` uses the token, else
basic auth.  Python truthiness makes both `None` and the empty string fall back
to basic auth. -/
def fetchAuth (config : OpenApiConfig) : Auth :=
  match config.token with
  | some t => if t.data.isEmpty then Auth.basic config.username config.password
              else Auth.bearer t
  | none => Auth.basic config.username config.password

/-- An HTTP response as seen by the orchestrator. -/
structure Response where
  status_code : Nat
  body : Value

/-! ## Schema metadata, snapshots and work units -/

/-- Second argument of `set_metadata`: either the inferred field list
(`fields2add`) or the raw declared data value (`endpoint_dets["data"]`). -/
inductive SetMetadataArg where
  | fieldList (fields : List String)
  | dataValue (v : Value)

/-- Result of the external `set_metadata` (openapi_parser, not under src/),
modelled as the pair of the arguments it was applied to. -/
structure SchemaMeta where
  dataset_name : String
  arg : SetMetadataArg

/-- The external `set_metadata` call, recorded as its arguments. -/
def set_metadata (dataset_name : String) (arg : SetMetadataArg) : SchemaMeta :=
  ⟨dataset_name, arg⟩

/-- An aspect appended to a `DatasetSnapshot`. -/
inductive Aspect where
  | properties (description : String)
  | globalTags (tags : List String)
  | instMemory (url : String) (description : String) (time : Int)
  | schemaMeta (m : SchemaMeta)

/-- The `DatasetSnapshot` under construction. -/
structure DatasetSnapshot where
  urn : String
  aspects : List Aspect

/-- Append an aspect (`dataset_snapshot.aspects.append(...)`). -/
def addAspect (snap : DatasetSnapshot) (a : Aspect) : DatasetSnapshot :=
  { snap with aspects := snap.aspects ++ [a] }

/-- `ApiWorkUnit`: id plus the proposed snapshot. -/
structure ApiWorkUnit where
  id : String
  snapshot : DatasetSnapshot

/-- Translation of `APISource.build_wu`. -/
def build_wu (dataset_snapshot : DatasetSnapshot) (dataset_name : String) : ApiWorkUnit :=
  ⟨dataset_name, dataset_snapshot⟩

/-! ## The environment of external collaborators

These functions live in `openapi_parser.py` or in the surrounding DataHub
libraries, not under src/; the orchestrator is parameterised over them. -/

/-- External collaborators of `get_workunits_internal`, plus the ambient
platform string and clock. -/
structure Env where
  platform : String
  now : Int
  clean_url : String → String
  make_tag_urn : String → String
  request_call : String → Auth → Response
  extract_fields : Response → String → List String × Value
  extract_metadata : String → List (String × Value) → Option Nat
  try_guessing : String → List (String × Value) → Except String String
  compose_url_attr : String → List String → String

/-- Translation of `APISource.init_dataset` (lines 157-199): derives the
dataset name and builds the snapshot with its urn, description, tags and
documentation link. -/
def init_dataset (env : Env) (config : OpenApiConfig) (url_basepath : String)
    (endpoint_k : String) (endpoint_dets : EndpointDets) : DatasetSnapshot × String :=
  let dataset_name := deriveName endpoint_k
  let snap : DatasetSnapshot :=
    { urn := "urn:li:dataset:(urn:li:dataPlatform:" ++ env.platform ++ ","
        ++ config.name ++ "." ++ dataset_name ++ ",PROD)"
      aspects :=
        [ Aspect.properties endpoint_dets.description
        , Aspect.globalTags (endpoint_dets.tags.map env.make_tag_urn)
        , Aspect.instMemory (env.clean_url (config.url ++ url_basepath ++ endpoint_k))
            "Link to call for the dataset." env.now ] }
  (snap, dataset_name)

/-! ## Crawl state -/

/-- Python dict assignment `root_dataset_samples[dataset_name] = sample`:
overwrite in place if the key exists, else append (insertion order kept). -/
def insertCache (cache : List (String × Value)) (k : String) (v : Value) :
    List (String × Value) :=
  if cache.any (fun p => p.1 == k) then
    cache.map (fun p => if p.1 == k then (k, v) else p)
  else cache ++ [(k, v)]

/-- The mutable state threaded through `get_workunits_internal`: the warning
report (`self.report`, in order of `report_warning` calls), the sample cache
`root_dataset_samples`, and the work units yielded so far. -/
structure CrawlState where
  report : List (String × String)
  cache : List (String × Value)
  wus : List ApiWorkUnit

/-! ## The per-endpoint body of `get_workunits_internal` (lines 227-327) -/

/-- One iteration of the endpoint loop of `APISource.get_workunits_internal`,
translated branch for branch:
ignore-list skip (228-229); declared-schema branch (236-250), whose extracted
metadata, when truthy, is overwritten by `set_metadata(dataset_name,
endpoint_dets["data"])` before being emitted; declared-data branch (252-256);
concrete-endpoint fetch (257-279); guessed fetch (281-302); forced-example
fetch (303-327).  A raised exception aborts the generator, so the result is an
`Except`; an `Except.ok` carries the state after the iteration. -/
def processEndpoint (env : Env) (config : OpenApiConfig) (url_basepath : String)
    (endpoint_k : String) (endpoint_dets : EndpointDets) (st : CrawlState) :
    Except CrawlError CrawlState :=
  if config.ignore_endpoints.contains endpoint_k then
    Except.ok st
  else
    let ds := init_dataset env config url_basepath endpoint_k endpoint_dets
    let dataset_snapshot := ds.1
    let dataset_name := ds.2
    let extracted : Option Nat :=
      if schemaNontrivial endpoint_dets then
        env.extract_metadata dataset_name (schemaDict endpoint_dets)
      else none
    match extracted with
    | some _ =>
      match endpoint_dets.data with
      | none => Except.error (CrawlError.keyError "data")
      | some d =>
        let schema_metadata := set_metadata dataset_name (SetMetadataArg.dataValue d)
        let snap := addAspect dataset_snapshot (Aspect.schemaMeta schema_metadata)
        Except.ok { st with wus := st.wus ++ [build_wu snap dataset_name] }
    | none =>
      if dataTruthy endpoint_dets then
        let d := endpoint_dets.data.getD Value.vnull
        let schema_metadata := set_metadata dataset_name (SetMetadataArg.dataValue d)
        let snap := addAspect dataset_snapshot (Aspect.schemaMeta schema_metadata)
        Except.ok { st with wus := st.wus ++ [build_wu snap dataset_name] }
      else if endpoint_k.data.contains '\x7b' = false then
        let tot_url := env.clean_url (config.url ++ url_basepath ++ endpoint_k)
        let response := env.request_call tot_url (fetchAuth config)
        if response.status_code = 200 then
          let fr := env.extract_fields response dataset_name
          let fields2add := fr.1
          let cache2 := insertCache st.cache dataset_name fr.2
          let report2 :=
            if fields2add.isEmpty then st.report ++ [(endpoint_k, "No Fields")]
            else st.report
          let schema_metadata := set_metadata dataset_name (SetMetadataArg.fieldList fields2add)
          let snap := addAspect dataset_snapshot (Aspect.schemaMeta schema_metadata)
          Except.ok { report := report2, cache := cache2, wus := st.wus ++ [build_wu snap dataset_name] }
        else
          match report_bad_response response.status_code endpoint_k with
          | Except.error e => Except.error e
          | Except.ok _ => Except.ok st
      else
        if (config.forced_examples.any (fun p => p.1 == endpoint_k)) = false then
          match env.try_guessing endpoint_k st.cache with
          | Except.error e => Except.error (CrawlError.unresolvable e)
          | Except.ok url_guess =>
            let tot_url := env.clean_url (config.url ++ url_basepath ++ url_guess)
            let response := env.request_call tot_url (fetchAuth config)
            if response.status_code = 200 then
              let fr := env.extract_fields response dataset_name
              let fields2add := fr.1
              let report2 :=
                if fields2add.isEmpty then st.report ++ [(endpoint_k, "No Fields")]
                else st.report
              let schema_metadata :=
                set_metadata dataset_name (SetMetadataArg.fieldList fields2add)
              let snap := addAspect dataset_snapshot (Aspect.schemaMeta schema_metadata)
              Except.ok { st with report := report2, wus := st.wus ++ [build_wu snap dataset_name] }
            else
              match report_bad_response response.status_code endpoint_k with
              | Except.error e => Except.error e
              | Except.ok _ => Except.ok st
        else
          let attrs := ((config.forced_examples.find? (fun p => p.1 == endpoint_k)).map
            (fun p => p.2)).getD []
          let composed_url := env.compose_url_attr endpoint_k attrs
          let tot_url := env.clean_url (config.url ++ url_basepath ++ composed_url)
          let response := env.request_call tot_url (fetchAuth config)
          if response.status_code = 200 then
            let fr := env.extract_fields response dataset_name
            let fields2add := fr.1
            let report2 :=
              if fields2add.isEmpty then st.report ++ [(endpoint_k, "No Fields")]
              else st.report
            let schema_metadata :=
              set_metadata dataset_name (SetMetadataArg.fieldList fields2add)
            let snap := addAspect dataset_snapshot (Aspect.schemaMeta schema_metadata)
            Except.ok { st with report := report2, wus := st.wus ++ [build_wu snap dataset_name] }
          else
            match report_bad_response response.status_code endpoint_k with
            | Except.error e => Except.error e
            | Except.ok _ => Except.ok st

/-- The endpoint loop: process endpoints in spec order; a raised exception
stops the loop, keeping the state accumulated so far (the generator had already
yielded those work units). -/
def runLoop (env : Env) (config : OpenApiConfig) (url_basepath : String) :
    List (String × EndpointDets) → CrawlState → CrawlState × Option CrawlError
  | [], st => (st, none)
  | e :: rest, st =>
    match processEndpoint env config url_basepath e.1 e.2 st with
    | Except.ok st2 => runLoop env config url_basepath rest st2
    | Except.error err => (st, some err)

/-! ## Enumeration (`get_endpoints`) and the full crawl -/

/-- A raw path entry of the swagger document as seen by `get_endpoints`:
either a path exposing a GET operation, a path with no GET operation, or an
entry with missing or malformed method metadata. -/
inductive RawPathEntry where
  | getOp (path : String) (dets : EndpointDets)
  | nonGet (path : String)
  | malformed (path : String) (reason : String)

/-- Modelled from the spec: `get_endpoints` lives in
`datahub/ingestion/source/openapi_parser.py`, which is not under src/.
Spec section 4.2: enumeration keeps only paths exposing a GET operation and,
for every operation skipped due to missing or malformed method metadata, emits
a warning record (reason, path) rather than failing; the call site
(openapi.py line 216) passes only the specification, so no ignore list reaches
it.  Warning messages carry reason and path joined by " --- ", matching the
split performed at line 220. -/
def get_endpoints (entries : List RawPathEntry) :
    List (String × EndpointDets) × List String :=
  (entries.filterMap (fun e => match e with
     | RawPathEntry.getOp p dets => some (p, dets)
     | _ => none),
   entries.filterMap (fun e => match e with
     | RawPathEntry.malformed p r => some (r ++ " --- " ++ p)
     | _ => none))

/-- The warning-forwarding loop (lines 218-221): each warning message is split
on " --- " and unpacked as `reason, key, *rest`; fewer than two parts raise a
`ValueError`, warnings already forwarded staying in the report. -/
def reportEnumWarnings : List String → CrawlState → CrawlState × Option CrawlError
  | [], st => (st, none)
  | w :: ws, st =>
    match pySplit w " --- " with
    | r :: k :: _ => reportEnumWarnings ws { st with report := st.report ++ [(k, r)] }
    | _ => (st, some (CrawlError.valueError w))

/-- Translation of the body of `APISource.get_workunits_internal` after the
spec has been loaded: `basePath` is read from the specification, `get_endpoints`
enumerates, enumeration warnings are forwarded to the report, and the endpoint
loop runs.  Returns the final crawl state and the escaped exception, if any. -/
def get_workunits_internal (env : Env) (config : OpenApiConfig) (basePath : String)
    (entries : List RawPathEntry) : CrawlState × Option CrawlError :=
  let ge := get_endpoints entries
  match reportEnumWarnings ge.2 { report := [], cache := [], wus := [] } with
  | (st0, some e) => (st0, some e)
  | (st0, none) => runLoop env config basePath ge.1 st0

/-! ## Spec-modelled parameter guessing -/

/-- Render a scalar sample value for URL substitution. -/
def valueRepr : Value → String
  | Value.vstr s => s
  | Value.vnum n => toString n
  | Value.vbool b => if b then "True" else "False"
  | _ => ""

/-- Modelled from the spec: the representative value taken from an ancestor
sample - the value of one representative key of that sample (an `id` field,
say, spec section 4.3); the selection policy is left open by the spec
(section 9), so the first key of the sample object is used. -/
def representativeValue : Value → Option String
  | Value.vobj kvs => kvs.head?.map (fun p => valueRepr p.2)
  | _ => none

/-- Modelled from the spec: substitute the representative value for every
placeholder segment of the path template. -/
def fillPlaceholders (endpoint_k v : String) : String :=
  joinWith "/" ((pySplit endpoint_k "/").map
    (fun seg => if ['\x7b'].isPrefixOf seg.data then v else seg))

/-- Modelled from the spec: `try_guessing` lives in
`datahub/ingestion/source/openapi_parser.py`, which is not under src/.
Spec section 4.3: inspect the sample cache for a dataset whose name is a
prefix/ancestor of this path (a sample captured for `/users` informs
`/users/{id}`); take one representative value from that sample and substitute
it for the placeholder; if no qualifying sample exists, resolution fails with
`UnresolvableParameterError`. -/
def try_guessing_spec (endpoint_k : String) (root_dataset_samples : List (String × Value)) :
    Except String String :=
  match root_dataset_samples.find?
      (fun p => (p.1 ++ ".").data.isPrefixOf (deriveName endpoint_k).data) with
  | none => Except.error ("UnresolvableParameterError --- " ++ endpoint_k)
  | some p =>
    match representativeValue p.2 with
    | some v => Except.ok (fillPlaceholders endpoint_k v)
    | none => Except.error ("UnresolvableParameterError --- " ++ endpoint_k)

/-! ## Concrete test fixtures used by witnesses and counterexamples -/

/-- A concrete environment: identity url cleaning, a 200 response carrying one
record, field extraction returning no fields and the body as sample, and the
spec-modelled guesser. -/
def testEnv : Env :=
  { platform := "OpenApi"
    now := 0
    clean_url := fun s => s
    make_tag_urn := fun t => "urn:li:tag:" ++ t
    request_call := fun _ _ => { status_code := 200, body := Value.vobj [("id", Value.vnum 1)] }
    extract_fields := fun r _ => ([], r.body)
    extract_metadata := fun _ _ => none
    try_guessing := try_guessing_spec
    compose_url_attr := fun u _ => u }

/-- `testEnv` with every fetch answering the given status code. -/
def statusEnv (c : Nat) : Env :=
  { testEnv with request_call := fun _ _ => { status_code := c, body := Value.vnull } }

/-- A minimal concrete configuration. -/
def testConfig : OpenApiConfig :=
  { name := "test", url := "http://api", swagger_file := "swagger.json" }

/-- The empty crawl state. -/
def st0 : CrawlState := { report := [], cache := [], wus := [] }

/-! ## C4 - dataset-name derivation -/

/-- C4 (counterexample): dataset-name derivation is NOT idempotent.
`deriveName "/"` is `"root"`, but re-deriving drops the first character again:
`deriveName "root" = "oot"`. -/
theorem c4_deriveName_not_idempotent :
    ¬ (deriveName (deriveName "/") = deriveName "/") := by decide

/-- C4 (amended): the two concrete equalities of the claim hold -
`deriveName "/" = "root"` and `deriveName "/a/b/" = "a.b"` - but idempotence
does not, since the derivation unconditionally strips the first character. -/
theorem c4_deriveName_examples :
    deriveName "/" = "root" ∧ deriveName "/a/b/" = "a.b" := by decide

/-! ## C9 - pre-supplied token short-circuits token acquisition -/

/-- C9: if a token is configured (`token is not None`), `get_swagger` performs
no token-acquisition request and no validation of the `get_token` descriptor -
whatever `get_token` holds, no error is raised and the spec fetch is made
directly with the configured token. -/
theorem c9_token_skips_acquisition (config : OpenApiConfig)
    (get_tok : TokenRequest → String) (t : String) (h : config.token = some t) :
    get_swagger config get_tok =
      Except.ok (none, SwagCall.withToken config.url (some t) config.swagger_file) := by
  unfold get_swagger
  rw [h]
  simp

/-- Witness for C9 at a config with a malformed `get_token` descriptor. -/
theorem c9_token_skips_acquisition_witness :
    get_swagger
      { name := "n", url := "u", swagger_file := "s", token := some "tok",
        get_token := [("request_type", "delete")] } (fun _ => "") =
      Except.ok (none, SwagCall.withToken "u" (some "tok") "s") :=
  c9_token_skips_acquisition _ (fun _ => "") "tok" rfl

/-! ## C10 - the two credential checks disagree on the empty-string token -/

/-- C10: a configured token of `""` counts as present during spec loading
(`token is not None`: acquisition skipped, the empty token passed to the spec
fetch) but as absent during endpoint fetching (`if config.token:` is falsy, so
fetches fall back to username/password basic auth). -/
theorem c10_empty_token_inconsistent (config : OpenApiConfig)
    (get_tok : TokenRequest → String) (h : config.token = some "") :
    get_swagger config get_tok =
      Except.ok (none, SwagCall.withToken config.url (some "") config.swagger_file) ∧
    fetchAuth config = Auth.basic config.username config.password := by
  constructor
  · unfold get_swagger
    rw [h]
    simp
  · unfold fetchAuth
    rw [h]
    simp

/-- Witness for C10 at a concrete config with an empty-string token. -/
theorem c10_empty_token_inconsistent_witness :
    get_swagger
      { name := "n", url := "u", swagger_file := "s", username := "alice",
        password := "pw", token := some "" } (fun _ => "") =
      Except.ok (none, SwagCall.withToken "u" (some "") "s") ∧
    fetchAuth
      { name := "n", url := "u", swagger_file := "s", username := "alice",
        password := "pw", token := some "" } = Auth.basic "alice" "pw" :=
  c10_empty_token_inconsistent _ (fun _ => "") rfl

/-! ## C1 - classified status codes: skip and continue, but the warning is lost -/

/-- C1 (code evaluation at the failing inputs): for each classified status code
in {400, 403, 404, 500, 504}, `codes_mapping` holds the documented reason
string, and the endpoint is skipped (no work unit) with the crawl continuing
(the step succeeds) - but the crawl state is returned UNCHANGED: the reason
string computed by `report_bad_response` is discarded and no warning reaches
the report. -/
theorem c1_classified_status_no_warning_recorded :
    codes_mapping 400 = some "Unknown error for reaching endpoint" ∧
    codes_mapping 403 = some "Not authorised to get endpoint" ∧
    codes_mapping 404 =
      some "Unable to find an example for endpoint. Please add it to the list of forced examples." ∧
    codes_mapping 500 = some "Server error for reaching endpoint" ∧
    codes_mapping 504 = some "Timeout for reaching endpoint" ∧
    processEndpoint (statusEnv 400) testConfig "" "/users" {} st0 = Except.ok st0 ∧
    processEndpoint (statusEnv 403) testConfig "" "/users" {} st0 = Except.ok st0 ∧
    processEndpoint (statusEnv 404) testConfig "" "/users" {} st0 = Except.ok st0 ∧
    processEndpoint (statusEnv 500) testConfig "" "/users" {} st0 = Except.ok st0 ∧
    processEndpoint (statusEnv 504) testConfig "" "/users" {} st0 = Except.ok st0 ∧
    st0.report = [] :=
  ⟨rfl, rfl, rfl, rfl, rfl, rfl, rfl, rfl, rfl, rfl, rfl⟩

/-! ## C2 - a 2xx other than 200 is fatal, not a success -/

/-- C2 (counterexample): a fetch answering 201 is NOT treated per the success
path - no fields are inferred, no work unit is emitted, and the fatal
unexpected-response exception is raised. -/
theorem c2_status_201_is_fatal :
    processEndpoint (statusEnv 201) testConfig "" "/users" {} st0 =
      Except.error (CrawlError.unexpectedResponse 201 "/users") := rfl

/-- C2 (amended): only status 200 takes the success path; every 2xx status
other than 200 falls into the `report_bad_response` default arm and raises the
fatal unexpected-response error. -/
theorem c2_non200_2xx_is_fatal (env : Env) (config : OpenApiConfig) (bp k : String)
    (dets : EndpointDets) (st : CrawlState) (s : Nat)
    (hign : config.ignore_endpoints.contains k = false)
    (hschema : schemaNontrivial dets = false)
    (hdata : dataTruthy dets = false)
    (hconc : k.data.contains '\x7b' = false)
    (hs : (env.request_call (env.clean_url (config.url ++ bp ++ k))
      (fetchAuth config)).status_code = s)
    (h200 : 200 < s) (h299 : s ≤ 299) :
    processEndpoint env config bp k dets st =
      Except.error (CrawlError.unexpectedResponse s k) := by
  have hmap : codes_mapping s = none := by
    unfold codes_mapping
    rw [if_neg (by omega), if_neg (by omega), if_neg (by omega),
      if_neg (by omega), if_neg (by omega)]
  have hne : s ≠ 200 := by omega
  unfold processEndpoint
  rw [hign]
  simp only [Bool.false_eq_true, if_false, hschema, hdata, hconc, if_true, ite_false, ite_true]
  rw [hs]
  simp only [hne, if_false, ite_false]
  unfold report_bad_response
  rw [hmap]

/-- Witness for C2 at status 204. -/
theorem c2_non200_2xx_is_fatal_witness :
    processEndpoint (statusEnv 204) testConfig "" "/users" {} st0 =
      Except.error (CrawlError.unexpectedResponse 204 "/users") :=
  c2_non200_2xx_is_fatal (statusEnv 204) testConfig "" "/users" {} st0 204
    rfl rfl rfl rfl rfl (by omega) (by omega)

/-! ## C3 - unresolvable placeholder: the crawl aborts, it does not skip -/

/-- C3 (counterexample): a crawl over `/users/{id}` (placeholder, no forced
example, empty sample cache) followed by `/after` does NOT skip the endpoint
with a warning and continue: the `UnresolvableParameterError` propagates out of
the unguarded `try_guessing` call, the report stays empty, no work unit is
emitted - not even for the later endpoint `/after` - and the crawl aborts. -/
theorem c3_unresolvable_aborts_crawl :
    get_workunits_internal testEnv testConfig ""
        [RawPathEntry.getOp "/users/{id}" {}, RawPathEntry.getOp "/after" {}] =
      ({ report := [], cache := [], wus := [] },
       some (CrawlError.unresolvable ("UnresolvableParameterError --- /users/{id}"))) := rfl

/-- C3 (amended): when a path template has a placeholder, no forced example
exists and no cache entry qualifies as an ancestor sample, resolution by the
spec-modelled `try_guessing_spec` fails with `UnresolvableParameterError`, and
since the orchestrator wraps the call in no handler, the per-endpoint step
raises instead of warning and skipping - the crawl aborts at that endpoint. -/
theorem c3_unresolvable_raises (env : Env) (config : OpenApiConfig) (bp k : String)
    (dets : EndpointDets) (st : CrawlState)
    (hign : config.ignore_endpoints.contains k = false)
    (hschema : schemaNontrivial dets = false)
    (hdata : dataTruthy dets = false)
    (hplc : k.data.contains '\x7b' = true)
    (hforced : (config.forced_examples.any (fun p => p.1 == k)) = false)
    (hguess : env.try_guessing = try_guessing_spec)
    (hnone : st.cache.find?
      (fun p => (p.1 ++ ".").data.isPrefixOf (deriveName k).data) = none) :
    processEndpoint env config bp k dets st =
      Except.error (CrawlError.unresolvable ("UnresolvableParameterError --- " ++ k)) := by
  have hfail : env.try_guessing k st.cache =
      Except.error ("UnresolvableParameterError --- " ++ k) := by
    rw [hguess]
    unfold try_guessing_spec
    rw [hnone]
  unfold processEndpoint
  rw [hign]
  simp only [Bool.false_eq_true, if_false, hschema, hdata, hplc, hforced, ite_false, ite_true]
  rw [hfail]
  simp

/-- Witness for C3 at a concrete parameterised endpoint with an empty cache. -/
theorem c3_unresolvable_raises_witness :
    processEndpoint testEnv testConfig "" "/pets/{petId}" {} st0 =
      Except.error (CrawlError.unresolvable ("UnresolvableParameterError --- /pets/{petId}")) :=
  c3_unresolvable_raises testEnv testConfig "" "/pets/{petId}" {} st0
    rfl rfl rfl rfl rfl rfl rfl

/-! ## C6 - ignored endpoints can still be named by enumeration warnings -/

/-- Configuration ignoring the endpoint `/ign`. -/
def c6cfg : OpenApiConfig := { testConfig with ignore_endpoints := ["/ign"] }

/-- C6 (counterexample): an endpoint on the ignore list CAN appear in the
warning report.  Enumeration warnings are forwarded (lines 218-221) before the
ignore filter of the loop (lines 227-229) and `get_endpoints` receives no
ignore list, so a malformed-operation warning naming the ignored endpoint is
recorded. -/
theorem c6_ignored_endpoint_warned_at_enumeration :
    get_workunits_internal testEnv c6cfg ""
        [RawPathEntry.malformed "/ign" "Unable to parse the method"] =
      ({ report := [("/ign", "Unable to parse the method")], cache := [], wus := [] }, none) ∧
    c6cfg.ignore_endpoints.contains "/ign" = true :=
  ⟨rfl, rfl⟩

/-- C6 (amended): an endpoint on the ignore list is skipped at the top of the
processing loop - the step emits no work unit, records no warning and leaves
the state untouched; only enumeration-time warnings, reported before the
filter, can still name it. -/
theorem c6_ignored_endpoint_skipped (env : Env) (config : OpenApiConfig)
    (bp k : String) (dets : EndpointDets) (st : CrawlState)
    (h : config.ignore_endpoints.contains k = true) :
    processEndpoint env config bp k dets st = Except.ok st := by
  unfold processEndpoint
  rw [h]
  simp

/-- Witness for C6 at the concrete ignored endpoint. -/
theorem c6_ignored_endpoint_skipped_witness :
    processEndpoint testEnv c6cfg "" "/ign" {} st0 = Except.ok st0 :=
  c6_ignored_endpoint_skipped testEnv c6cfg "" "/ign" {} st0 rfl

/-! ## C7 - a 200 with no inferred fields is emitted, with a "No Fields" warning -/

/-- The work unit emitted on the sampling success path: snapshot of
`init_dataset` extended with `set_metadata(dataset_name, fields2add)`. -/
def emitRecord (env : Env) (config : OpenApiConfig) (bp k : String)
    (dets : EndpointDets) (fields : List String) : ApiWorkUnit :=
  build_wu (addAspect (init_dataset env config bp k dets).1
    (Aspect.schemaMeta (set_metadata (deriveName k) (SetMetadataArg.fieldList fields))))
    (deriveName k)

/-- C7: on each of the three fetch paths (concrete, guessed, forced-example),
a status-200 response whose body yields an empty inferred field list still
emits the work unit (with an empty field list in its schema metadata) and
appends the warning `(endpoint, "No Fields")` to the report; the step neither
raises nor skips. -/
theorem c7_empty_fields_emitted_with_warning (env : Env) (config : OpenApiConfig)
    (bp k : String) (dets : EndpointDets) (st : CrawlState)
    (hign : config.ignore_endpoints.contains k = false)
    (hschema : schemaNontrivial dets = false)
    (hdata : dataTruthy dets = false) :
    (k.data.contains '\x7b' = false →
      (env.request_call (env.clean_url (config.url ++ bp ++ k))
        (fetchAuth config)).status_code = 200 →
      (env.extract_fields (env.request_call (env.clean_url (config.url ++ bp ++ k))
        (fetchAuth config)) (deriveName k)).1 = [] →
      processEndpoint env config bp k dets st =
        Except.ok ⟨st.report ++ [(k, "No Fields")],
          insertCache st.cache (deriveName k)
            (env.extract_fields (env.request_call (env.clean_url (config.url ++ bp ++ k))
              (fetchAuth config)) (deriveName k)).2,
          st.wus ++ [emitRecord env config bp k dets []]⟩) ∧
    (k.data.contains '\x7b' = true →
      (config.forced_examples.any (fun p => p.1 == k)) = false →
      ∀ u, env.try_guessing k st.cache = Except.ok u →
      (env.request_call (env.clean_url (config.url ++ bp ++ u))
        (fetchAuth config)).status_code = 200 →
      (env.extract_fields (env.request_call (env.clean_url (config.url ++ bp ++ u))
        (fetchAuth config)) (deriveName k)).1 = [] →
      processEndpoint env config bp k dets st =
        Except.ok ⟨st.report ++ [(k, "No Fields")], st.cache,
          st.wus ++ [emitRecord env config bp k dets []]⟩) ∧
    (k.data.contains '\x7b' = true →
      (config.forced_examples.any (fun p => p.1 == k)) = true →
      (env.request_call (env.clean_url (config.url ++ bp ++ env.compose_url_attr k
          (((config.forced_examples.find? (fun p => p.1 == k)).map (fun p => p.2)).getD [])))
        (fetchAuth config)).status_code = 200 →
      (env.extract_fields (env.request_call (env.clean_url (config.url ++ bp ++
          env.compose_url_attr k
          (((config.forced_examples.find? (fun p => p.1 == k)).map (fun p => p.2)).getD [])))
        (fetchAuth config)) (deriveName k)).1 = [] →
      processEndpoint env config bp k dets st =
        Except.ok ⟨st.report ++ [(k, "No Fields")], st.cache,
          st.wus ++ [emitRecord env config bp k dets []]⟩) := by
  refine ⟨?_, ?_, ?_⟩
  · intro hconc h200 hempty
    unfold processEndpoint
    rw [hign]
    simp only [Bool.false_eq_true, if_false, hschema, hdata, hconc, ite_false, ite_true]
    rw [h200]
    simp only [if_true, ite_true, hempty]
    unfold emitRecord init_dataset
    simp
    exact ⟨hempty, by rw [hempty]⟩
  · intro hplc hforced u hguess h200 hempty
    unfold processEndpoint
    rw [hign]
    simp only [Bool.false_eq_true, if_false, hschema, hdata, hplc, hforced, ite_false, ite_true]
    rw [hguess]
    simp only []
    rw [h200]
    simp only [if_true, ite_true, hempty]
    unfold emitRecord init_dataset
    simp
    exact ⟨hempty, by rw [hempty]⟩
  · intro hplc hforced h200 hempty
    unfold processEndpoint
    rw [hign]
    simp only [Bool.false_eq_true, if_false, hschema, hdata, hplc, hforced, ite_false, ite_true]
    rw [h200]
    simp only [if_true, ite_true, hempty]
    unfold emitRecord init_dataset
    simp
    exact ⟨hempty, by rw [hempty]⟩

/-- Witness for C7 on the concrete branch: `testEnv` answers 200 and extracts
no fields, yet the work unit is emitted and the "No Fields" warning recorded. -/
theorem c7_empty_fields_emitted_with_warning_witness :
    processEndpoint testEnv testConfig "" "/users" {} st0 =
      Except.ok ⟨[("/users", "No Fields")],
        [("users", Value.vobj [("id", Value.vnum 1)])],
        [emitRecord testEnv testConfig "" "/users" {} []]⟩ :=
  (c7_empty_fields_emitted_with_warning testEnv testConfig "" "/users" {} st0
    rfl rfl rfl).1 rfl rfl rfl

/-! ## C8 - a truthy extracted declared schema is overwritten by the data value -/

/-- C8: when the declared schema is non-trivial and `extract_metadata` returns
a truthy result, the emitted schema metadata is `set_metadata(dataset_name,
endpoint_dets["data"])` - recomputed from the declared sample data, whatever
value `x` the extractor produced - and the step makes no HTTP call: its result
does not depend on `request_call` at all. -/
theorem c8_extracted_schema_discarded_for_data (env : Env)
    (rc2 : String → Auth → Response) (config : OpenApiConfig) (bp k : String)
    (dets : EndpointDets) (st : CrawlState) (d : Value) (x : Nat)
    (hign : config.ignore_endpoints.contains k = false)
    (hschema : schemaNontrivial dets = true)
    (hx : env.extract_metadata (deriveName k) (schemaDict dets) = some x)
    (hd : dets.data = some d) :
    processEndpoint env config bp k dets st =
      Except.ok ⟨st.report, st.cache,
        st.wus ++ [build_wu (addAspect (init_dataset env config bp k dets).1
          (Aspect.schemaMeta (set_metadata (deriveName k) (SetMetadataArg.dataValue d))))
          (deriveName k)]⟩ ∧
    processEndpoint { env with request_call := rc2 } config bp k dets st =
      processEndpoint env config bp k dets st := by
  have hmain : ∀ rc : String → Auth → Response,
      processEndpoint { env with request_call := rc } config bp k dets st =
        Except.ok ⟨st.report, st.cache,
          st.wus ++ [build_wu (addAspect (init_dataset env config bp k dets).1
            (Aspect.schemaMeta (set_metadata (deriveName k) (SetMetadataArg.dataValue d))))
            (deriveName k)]⟩ := by
    intro rc
    unfold processEndpoint
    rw [hign]
    simp only [Bool.false_eq_true, if_false, hschema, if_true, ite_true, ite_false]
    unfold init_dataset
    simp only []
    rw [hx, hd]
  have henv : processEndpoint env config bp k dets st =
      processEndpoint { env with request_call := env.request_call } config bp k dets st := by
    rfl
  constructor
  · rw [henv]
    exact hmain env.request_call
  · rw [hmain rc2, henv, hmain env.request_call]

/-- Witness for C8: a concrete endpoint with a declared schema and data. -/
theorem c8_extracted_schema_discarded_for_data_witness :
    processEndpoint { testEnv with extract_metadata := fun _ _ => some 7 } testConfig ""
        "/users"
        { schema := some [("type", Value.vstr "object")],
          data := some (Value.vobj [("a", Value.vnum 1)]) } st0 =
      Except.ok ⟨[], [],
        [build_wu (addAspect (init_dataset { testEnv with extract_metadata := fun _ _ => some 7 }
            testConfig "" "/users"
            { schema := some [("type", Value.vstr "object")],
              data := some (Value.vobj [("a", Value.vnum 1)]) }).1
          (Aspect.schemaMeta (set_metadata "users"
            (SetMetadataArg.dataValue (Value.vobj [("a", Value.vnum 1)])))))
          "users"]⟩ ∧
    processEndpoint { { testEnv with extract_metadata := fun _ _ => some 7 } with
        request_call := fun _ _ => { status_code := 500, body := Value.vnull } } testConfig ""
        "/users"
        { schema := some [("type", Value.vstr "object")],
          data := some (Value.vobj [("a", Value.vnum 1)]) } st0 =
      processEndpoint { testEnv with extract_metadata := fun _ _ => some 7 } testConfig ""
        "/users"
        { schema := some [("type", Value.vstr "object")],
          data := some (Value.vobj [("a", Value.vnum 1)]) } st0 :=
  c8_extracted_schema_discarded_for_data { testEnv with extract_metadata := fun _ _ => some 7 }
    (fun _ _ => { status_code := 500, body := Value.vnull }) testConfig "" "/users"
    { schema := some [("type", Value.vstr "object")],
      data := some (Value.vobj [("a", Value.vnum 1)]) } st0
    (Value.vobj [("a", Value.vnum 1)]) 7 rfl rfl rfl rfl

/-! ## C5 - the sample cache is written only by a concrete status-200 fetch -/

/-- C5: whenever the per-endpoint step succeeds, either the sample cache is
untouched, or the endpoint was concrete (no placeholder), its fetch answered
200, and the cache was updated exactly at the dataset name with the
representative sample returned by `extract_fields`.  Guessed and forced-example
fetches, ignored endpoints, declared-schema/data branches and classified bad
responses all leave the cache unchanged. -/
theorem c5_cache_written_only_by_concrete_200 (env : Env) (config : OpenApiConfig)
    (bp k : String) (dets : EndpointDets) (st st2 : CrawlState)
    (hok : processEndpoint env config bp k dets st = Except.ok st2) :
    st2.cache = st.cache ∨
    (k.data.contains '\x7b' = false ∧
     (env.request_call (env.clean_url (config.url ++ bp ++ k))
       (fetchAuth config)).status_code = 200 ∧
     st2.cache = insertCache st.cache (deriveName k)
       ((env.extract_fields (env.request_call (env.clean_url (config.url ++ bp ++ k))
         (fetchAuth config)) (deriveName k)).2)) := by
  unfold processEndpoint at hok
  simp only [init_dataset] at hok
  split at hok
  · injection hok with h2
    subst h2
    exact Or.inl rfl
  · split at hok
    · split at hok
      · simp at hok
      · injection hok with h2
        subst h2
        exact Or.inl rfl
    · split at hok
      · injection hok with h2
        subst h2
        exact Or.inl rfl
      · split at hok
        · rename_i hconc
          split at hok
          · rename_i h200
            injection hok with h2
            subst h2
            exact Or.inr ⟨hconc, h200, rfl⟩
          · split at hok
            · simp at hok
            · injection hok with h2
              subst h2
              exact Or.inl rfl
        · split at hok
          · split at hok
            · simp at hok
            · split at hok
              · injection hok with h2
                subst h2
                exact Or.inl rfl
              · split at hok
                · simp at hok
                · injection hok with h2
                  subst h2
                  exact Or.inl rfl
          · split at hok
            · injection hok with h2
              subst h2
              exact Or.inl rfl
            · split at hok
              · simp at hok
              · injection hok with h2
                subst h2
                exact Or.inl rfl

/-- Witness for C5: the concrete 200 fetch of `testEnv` hits the right
disjunct - the cache is updated at the dataset name with the sample. -/
theorem c5_cache_written_only_by_concrete_200_witness :
    (⟨[("/users", "No Fields")], [("users", Value.vobj [("id", Value.vnum 1)])],
        [emitRecord testEnv testConfig "" "/users" {} []]⟩ : CrawlState).cache = st0.cache ∨
    ("/users".data.contains '\x7b' = false ∧
     (testEnv.request_call (testEnv.clean_url (testConfig.url ++ "" ++ "/users"))
       (fetchAuth testConfig)).status_code = 200 ∧
     (⟨[("/users", "No Fields")], [("users", Value.vobj [("id", Value.vnum 1)])],
        [emitRecord testEnv testConfig "" "/users" {} []]⟩ : CrawlState).cache =
       insertCache st0.cache (deriveName "/users")
         ((testEnv.extract_fields (testEnv.request_call
           (testEnv.clean_url (testConfig.url ++ "" ++ "/users"))
           (fetchAuth testConfig)) (deriveName "/users")).2)) :=
  c5_cache_written_only_by_concrete_200 testEnv testConfig "" "/users" {} st0
    ⟨[("/users", "No Fields")], [("users", Value.vobj [("id", Value.vnum 1)])],
      [emitRecord testEnv testConfig "" "/users" {} []]⟩ rfl
